import Mathlib

/-!
Verification development for the `frappe_desk_theme` client-side theming layer
(`src/frappe_desk_theme/public/js/frappe_desk_theme.js`).

The JavaScript class `FrappeDeskTheme` is shallowly embedded as pure Lean
functions.  The document root's inline style map (`root.style`) is modelled as
a function from CSS custom-property names to optional values; `setProperty`
and `removeProperty` are pointwise updates.  Browser-local storage is modelled
as an optional `CacheEntry` (JSON stringify/parse round-trips on the plain
data objects involved, so (de)serialisation is the identity).  The network
fetch of `loadTheme` is modelled by a `FetchOutcome` parameter describing the
environment's response after unwrapping `data?.message || data`.  JavaScript
exceptions are modelled by an explicit `threw` boolean paired with the state
reached at the throw point (side effects performed before a throw persist,
exactly as in the source).
-/

set_option maxHeartbeats 4000000

/-- A row of the `hide_search` child table: a record carrying a `role` string,
as consumed by `getUserRoles` (js lines 199-215). -/
structure HideSearchEntry where
  role : String
deriving DecidableEq

/-- The flat theme configuration object fetched from the server.  Every field
is optional (the server may omit any of them); string fields model text/color
values, `Option Int` fields model the 0/1 check fields, and `hide_search` is
the child table of roles.  Field names are exactly the keys read by
`setCSSVariables`, `toggleSidebar`, `toggleSearchBar` and `setDefaultApp`. -/
structure ThemeConfig where
  login_page_background_color : Option String := none
  login_page_background_image : Option String := none
  login_box_position : Option String := none
  is_app_details_inside_the_box : Option Int := none
  login_box_background_color : Option String := none
  login_button_background_color : Option String := none
  login_button_text_color : Option String := none
  login_page_button_hover_background_color : Option String := none
  login_page_button_hover_text_color : Option String := none
  page_heading_text_color : Option String := none
  login_page_title : Option String := none
  input_background_color : Option String := none
  input_text_color : Option String := none
  input_border_color : Option String := none
  input_label_color : Option String := none
  navbar_color : Option String := none
  navbar_text_color : Option String := none
  hide_help_button : Option Int := none
  hide_app_switcher : Option Int := none
  button_background_color : Option String := none
  button_text_color : Option String := none
  button_hover_background_color : Option String := none
  button_hover_text_color : Option String := none
  secondary_button_background_color : Option String := none
  secondary_button_text_color : Option String := none
  secondary_button_hover_background_color : Option String := none
  secondary_button_hover_text_color : Option String := none
  body_background_color : Option String := none
  main_body_content_box_background_color : Option String := none
  main_body_content_box_text_color : Option String := none
  sidebar_background_color : Option String := none
  sidebar_text_color : Option String := none
  table_head_background_color : Option String := none
  table_head_text_color : Option String := none
  table_body_background_color : Option String := none
  table_body_text_color : Option String := none
  table_hide_like_comment_section : Option Int := none
  number_card_background_color : Option String := none
  number_card_border_color : Option String := none
  number_card_text_color : Option String := none
  hide_side_bar : Option Int := none
  hide_search : Option (List HideSearchEntry) := none
  default_app : Option String := none
deriving DecidableEq

/-- The persisted cache wrapper written by `setCachedTheme` (js lines 86-97):
`data` is optional because an arbitrary (possibly malformed) JSON object can
sit in storage, in which case `cachedData.data` is falsy. -/
structure CacheEntry where
  data : Option ThemeConfig
  timestamp : Int
  version : Int
deriving DecidableEq

/-- The 24-hour cache TTL in milliseconds, `this.cacheTimeout` (js line 12). -/
def cacheTimeout : Int := 24 * 60 * 60 * 1000

/-- JavaScript truthiness of an optional string value: `undefined`, `null`
and the empty string are falsy. -/
def strTruthy (o : Option String) : Bool :=
  match o with
  | none => false
  | some s => s != ""

/-- JavaScript truthiness of an optional numeric value: `undefined`, `null`
and `0` are falsy. -/
def intTruthy (o : Option Int) : Bool :=
  match o with
  | none => false
  | some n => n != 0

/-- `getCachedTheme` (js lines 73-80): read and parse the stored entry; any
read/parse failure or absence yields `null`.  Storage is modelled as the
already-parsed optional entry, so the read is the identity. -/
def getCachedTheme (storage : Option CacheEntry) : Option CacheEntry := storage

/-- `setCachedTheme` (js lines 86-97): the storage content after writing
`\x7b data, timestamp: Date.now(), version: 1 \x7d` under the cache key. -/
def setCachedTheme (themeData : ThemeConfig) (now : Int) : Option CacheEntry :=
  some { data := some themeData, timestamp := now, version := 1 }

/-- `isCacheValid` (js lines 103-111): false when no entry parses; otherwise
the age `now - timestamp` must be strictly below `cacheTimeout`.  The `data`
and `version` fields are not consulted. -/
def isCacheValid (storage : Option CacheEntry) (now : Int) : Bool :=
  match getCachedTheme storage with
  | none => false
  | some cachedData => decide (now - cachedData.timestamp < cacheTimeout)

/-- Environment response for one `loadTheme` call (js lines 130-163), after
unwrapping `data?.message || data`: `networkError` covers a rejected
`fetch`/`json()`; `response ok payload` carries `response.ok` and the
unwrapped theme payload (`none` when the unwrapped value is falsy/empty). -/
inductive FetchOutcome where
  | networkError : FetchOutcome
  | response : Bool → Option ThemeConfig → FetchOutcome
deriving DecidableEq

/-- The controller's load-relevant mutable state: `this.themeData` and the
persisted cache slot. -/
structure LoadState where
  themeData : Option ThemeConfig
  cache : Option CacheEntry
deriving DecidableEq

/-- Result of a stateful step that may throw: the state reached (mutations
performed before a throw persist) and whether an exception escaped. -/
structure LoadOutcome where
  state : LoadState
  threw : Bool
deriving DecidableEq

/-- The `catch` block of `loadTheme` (js lines 154-162): fall back to the
cached data when a cache entry with truthy `data` exists, else rethrow. -/
def loadThemeCatch (st : LoadState) : LoadOutcome :=
  match getCachedTheme st.cache with
  | some cachedData =>
    match cachedData.data with
    | some d => { state := { st with themeData := some d }, threw := false }
    | none => { state := st, threw := true }
  | none => { state := st, threw := true }

/-- `loadTheme` (js lines 130-163): a non-ok HTTP status throws before
anything is assigned; on an ok response js line 145 first stores the
unwrapped payload into `this.themeData` — even when that payload is empty,
in which case the falsy value is stored and js line 148 then throws; a
network error rejects with nothing assigned.  All three failures land in
the same `catch`.  On success a fresh `CacheEntry` is also written. -/
def loadTheme (o : FetchOutcome) (now : Int) (st : LoadState) : LoadOutcome :=
  match o with
  | .response true (some t) =>
    { state := { themeData := some t, cache := setCachedTheme t now }, threw := false }
  | .response true none => loadThemeCatch { st with themeData := none }
  | .response false _ => loadThemeCatch st
  | .networkError => loadThemeCatch st

/-- `loadThemeIfNeeded` (js lines 116-123): skip the API call while the cache
is valid.  The second component records whether a fetch was performed. -/
def loadThemeIfNeeded (o : FetchOutcome) (now : Int) (st : LoadState) :
    LoadOutcome × Bool :=
  if isCacheValid st.cache now then ({ state := st, threw := false }, false)
  else (loadTheme o now st, true)

/-- `getUserRoles` (js lines 199-215): returns the boolean "hide the search
bar for this user".  `userRoles` models `frappe?.boot?.user?.roles` and
`themeData` models `this.themeData` (possibly null, hence the optional
chaining on `hide_search`). -/
def getUserRoles (userRoles : Option (List String))
    (themeData : Option ThemeConfig) : Bool :=
  match userRoles, themeData.bind ThemeConfig.hide_search with
  | some currentUser, some hideSearch =>
    if currentUser.contains "Administrator" then
      hideSearch.any fun u => u.role == "Administrator"
    else
      currentUser.any fun role => hideSearch.any fun u => u.role == role
  | some _, none => false
  | none, _ => false

/-- Inline style map of the document root (`document.documentElement.style`),
restricted to custom properties: a name is mapped to its current value, or to
`none` when unset. -/
abbrev Styles : Type := String → Option String

/-- `root.style.setProperty(n, v)`. -/
def Styles.setProperty (s : Styles) (n v : String) : Styles :=
  fun x => if x = n then some v else s x

/-- `root.style.removeProperty(n)`. -/
def Styles.removeProperty (s : Styles) (n : String) : Styles :=
  fun x => if x = n then none else s x

/-- The literal list of property names enumerated in `clearCSSVariables`
(js lines 225-239), in source order. -/
def cssVariables : List String :=
  ["--login-bg-color", "--login-bg-image", "--login-box-position", "--login-box-right", "--login-box-left",
   "--login-btn-bg", "--login-btn-color", "--login-btn-hover-bg", "--login-btn-hover-color",
   "--login-box-bg", "--page-heading-color", "--input-bg", "--input-color", "--input-border",
   "--input-label-color", "--navbar-bg", "--navbar-color", "--hide-help", "--btn-primary-bg",
   "--btn-primary-color", "--btn-primary-hover-bg", "--btn-primary-hover-color", "--btn-secondary-bg",
   "--btn-secondary-color", "--btn-secondary-hover-bg", "--btn-secondary-hover-color", "--body-bg",
   "--content-bg", "--table-head-bg", "--table-head-color", "--table-body-bg", "--table-body-color",
   "--hide-like-comment", "--widget-bg", "--widget-border", "--widget-color", "--sidebar-expanded",
   "--login-content-border", "--login-title-display", "--login-title-after-display",
   "--login-title-after-justify", "--login-title-after-margin", "--login-title-after-content", "--login-title-after-color",
   "--login-box-top", "--login-box-bg-override", "--login-box-border-radius", "--search-bar-display",
   "--navbar-toggler-border", "--breadcrumb-disabled-color", "--help-nav-link-color", "--help-nav-link-stroke",
   "--hide-app-switcher", "--app-switcher-pointer-events"]

/-- `clearCSSVariables` (js lines 222-245): remove each enumerated property
from the document root. -/
def clearCSSVariables (root : Styles) : Styles :=
  cssVariables.foldl Styles.removeProperty root

/-- `setDefaultCSSVariables` (js lines 252-279): the enumerated table of
fallback values, in source order. -/
def setDefaultCSSVariables (root : Styles) : Styles :=
  ((((((((((((((((((root.setProperty "--login-box-position" "static").setProperty
    "--login-box-right" "auto").setProperty
    "--login-box-left" "auto").setProperty
    "--login-box-top" "18%").setProperty
    "--login-box-bg" "#fff").setProperty
    "--login-content-border" "2px solid #d1d8dd").setProperty
    "--login-title-display" "block").setProperty
    "--login-title-after-display" "none").setProperty
    "--hide-help" "block").setProperty
    "--hide-like-comment" "block").setProperty
    "--hide-app-switcher" "block").setProperty
    "--app-switcher-pointer-events" "auto").setProperty
    "--sidebar-expanded" "").setProperty
    "--login-box-width" "400px").setProperty
    "--search-bar-display" "block").setProperty
    "--navbar-toggler-border" "#dee2e6").setProperty
    "--breadcrumb-disabled-color" "#6c757d").setProperty
    "--help-nav-link-color" "inherit").setProperty
    "--help-nav-link-stroke" "currentColor"

/-- A single-quote character as a string, used by the generated
`--login-title-after-content` value (js line 354 interpolates the title
between literal single quotes, with no escaping). -/
def singleQuote : String := String.singleton (Char.ofNat 39)

/-- The conditional section of `setCSSVariables` (js lines 296-467): each
block mirrors one `if` of the source, in source order.  Values guarded by a
truthiness test are extracted with `.getD ""` (the guard guarantees the field
is present).  On js line 319 the source passes
`theme.login_box_background_color` unguarded; when that field is undefined
the WebIDL DOMString coercion stores the string "undefined", hence the
`.getD "undefined"` below. -/
def setThemeVariables (theme : ThemeConfig) (root : Styles) : Styles :=
  let root := if strTruthy theme.login_page_background_color then
      root.setProperty "--login-bg-color" (theme.login_page_background_color.getD "")
    else root
  let root := if strTruthy theme.login_page_background_image then
      root.setProperty "--login-bg-image" ("url(\"" ++ theme.login_page_background_image.getD "" ++ "\")")
    else root
  let root := if strTruthy theme.login_box_position && (theme.login_box_position.getD "" != "Default") then
      (((root.setProperty "--login-box-position" "absolute").setProperty
        "--login-box-right" (if theme.login_box_position.getD "" == "Right" then "10%" else "auto")).setProperty
        "--login-box-left" (if theme.login_box_position.getD "" == "Left" then "10%" else "auto")).setProperty
        "--login-box-padding" (if theme.is_app_details_inside_the_box == some 1 then "18px 40px 40px 40px" else "40px")
    else root
  let root := if theme.is_app_details_inside_the_box.isSome then
      root.setProperty "--login-box-top" (if theme.is_app_details_inside_the_box == some 1 then "26%" else "18%")
    else root
  let root := if theme.is_app_details_inside_the_box == some 1 then
      (root.setProperty "--login-box-bg-override" (theme.login_box_background_color.getD "undefined")).setProperty
        "--login-box-border-radius" "10px"
    else root
  let root := if strTruthy theme.login_button_background_color then
      root.setProperty "--login-btn-bg" (theme.login_button_background_color.getD "")
    else root
  let root := if strTruthy theme.login_button_text_color then
      root.setProperty "--login-btn-color" (theme.login_button_text_color.getD "")
    else root
  let root := if strTruthy theme.login_page_button_hover_background_color then
      root.setProperty "--login-btn-hover-bg" (theme.login_page_button_hover_background_color.getD "")
    else root
  let root := if strTruthy theme.login_page_button_hover_text_color then
      root.setProperty "--login-btn-hover-color" (theme.login_page_button_hover_text_color.getD "")
    else root
  let root := if strTruthy theme.login_box_background_color then
      root.setProperty "--login-box-bg" (theme.login_box_background_color.getD "")
    else root
  let root := if strTruthy theme.page_heading_text_color then
      root.setProperty "--page-heading-color" (theme.page_heading_text_color.getD "")
    else root
  let root := if theme.is_app_details_inside_the_box == some 1 then
      root.setProperty "--login-content-border" "none"
    else root
  let root := if strTruthy theme.login_page_title then
      let r := ((((root.setProperty "--login-title-display" "none").setProperty
        "--login-title-after-display" "flex").setProperty
        "--login-title-after-justify" "center").setProperty
        "--login-title-after-margin" "10px").setProperty
        "--login-title-after-content" (singleQuote ++ theme.login_page_title.getD "" ++ singleQuote)
      if strTruthy theme.page_heading_text_color then
        r.setProperty "--login-title-after-color" (theme.page_heading_text_color.getD "")
      else r
    else root
  let root := if strTruthy theme.input_background_color then
      root.setProperty "--input-bg" (theme.input_background_color.getD "")
    else root
  let root := if strTruthy theme.input_text_color then
      root.setProperty "--input-color" (theme.input_text_color.getD "")
    else root
  let root := if strTruthy theme.input_border_color then
      root.setProperty "--input-border" (theme.input_border_color.getD "")
    else root
  let root := if strTruthy theme.input_label_color then
      root.setProperty "--input-label-color" (theme.input_label_color.getD "")
    else root
  let root := if strTruthy theme.navbar_color then
      root.setProperty "--navbar-bg" (theme.navbar_color.getD "")
    else root
  let root := if strTruthy theme.navbar_text_color then
      root.setProperty "--navbar-color" (theme.navbar_text_color.getD "")
    else root
  let root := if theme.hide_help_button.isSome then
      root.setProperty "--hide-help" (if intTruthy theme.hide_help_button then "none" else "block")
    else root
  let root := if theme.hide_app_switcher.isSome then
      (root.setProperty "--hide-app-switcher" (if intTruthy theme.hide_app_switcher then "none" else "block")).setProperty
        "--app-switcher-pointer-events" (if intTruthy theme.hide_app_switcher then "none" else "auto")
    else root
  let root := if strTruthy theme.button_background_color then
      root.setProperty "--btn-primary-bg" (theme.button_background_color.getD "")
    else root
  let root := if strTruthy theme.button_text_color then
      root.setProperty "--btn-primary-color" (theme.button_text_color.getD "")
    else root
  let root := if strTruthy theme.button_hover_background_color then
      root.setProperty "--btn-primary-hover-bg" (theme.button_hover_background_color.getD "")
    else root
  let root := if strTruthy theme.button_hover_text_color then
      root.setProperty "--btn-primary-hover-color" (theme.button_hover_text_color.getD "")
    else root
  let root := if strTruthy theme.secondary_button_background_color then
      root.setProperty "--btn-secondary-bg" (theme.secondary_button_background_color.getD "")
    else root
  let root := if strTruthy theme.secondary_button_text_color then
      root.setProperty "--btn-secondary-color" (theme.secondary_button_text_color.getD "")
    else root
  let root := if strTruthy theme.secondary_button_hover_background_color then
      root.setProperty "--btn-secondary-hover-bg" (theme.secondary_button_hover_background_color.getD "")
    else root
  let root := if strTruthy theme.secondary_button_hover_text_color then
      root.setProperty "--btn-secondary-hover-color" (theme.secondary_button_hover_text_color.getD "")
    else root
  let root := if strTruthy theme.body_background_color then
      root.setProperty "--body-bg" (theme.body_background_color.getD "")
    else root
  let root := if strTruthy theme.main_body_content_box_background_color then
      root.setProperty "--content-bg" (theme.main_body_content_box_background_color.getD "")
    else root
  let root := if strTruthy theme.main_body_content_box_text_color then
      root.setProperty "--content-text-color" (theme.main_body_content_box_text_color.getD "")
    else root
  let root := if strTruthy theme.sidebar_background_color then
      root.setProperty "--sidebar-bg" (theme.sidebar_background_color.getD "")
    else root
  let root := if strTruthy theme.sidebar_text_color then
      root.setProperty "--sidebar-text-color" (theme.sidebar_text_color.getD "")
    else root
  let root := if strTruthy theme.table_head_background_color then
      root.setProperty "--table-head-bg" (theme.table_head_background_color.getD "")
    else root
  let root := if strTruthy theme.table_head_text_color then
      root.setProperty "--table-head-color" (theme.table_head_text_color.getD "")
    else root
  let root := if strTruthy theme.table_body_background_color then
      root.setProperty "--table-body-bg" (theme.table_body_background_color.getD "")
    else root
  let root := if strTruthy theme.table_body_text_color then
      root.setProperty "--table-body-color" (theme.table_body_text_color.getD "")
    else root
  let root := if theme.table_hide_like_comment_section.isSome then
      root.setProperty "--hide-like-comment" (if intTruthy theme.table_hide_like_comment_section then "none" else "block")
    else root
  let root := if strTruthy theme.number_card_background_color then
      root.setProperty "--widget-bg" (theme.number_card_background_color.getD "")
    else root
  let root := if strTruthy theme.number_card_border_color then
      root.setProperty "--widget-border" (theme.number_card_border_color.getD "")
    else root
  let root := if strTruthy theme.number_card_text_color then
      root.setProperty "--widget-color" (theme.number_card_text_color.getD "")
    else root
  let root := if theme.hide_side_bar.isSome then
      root.setProperty "--sidebar-expanded" (if theme.hide_side_bar == some 0 then "expanded" else "")
    else root
  root

/-- `setCSSVariables` (js lines 286-468): clear, set defaults, then apply the
conditional section.  With a null `this.themeData` the property access on
js line 297 raises a TypeError, after the clear and the defaults have already
mutated the root: the second component records that throw. -/
def setCSSVariables (themeData : Option ThemeConfig) (root0 : Styles) : Styles × Bool :=
  let root := setDefaultCSSVariables (clearCSSVariables root0)
  match themeData with
  | none => (root, true)
  | some theme => (setThemeVariables theme root, false)

/-- The style map produced by one successful (non-null) theme application. -/
def applyStyles (theme : ThemeConfig) (root : Styles) : Styles :=
  (setCSSVariables (some theme) root).1

/-- The DOM state the controller touches besides root style properties:
presence of the optional elements (`.for-login`, `.body-sidebar-container`,
`.input-group.search-bar.text-muted`), the sidebar's `expanded` class, the
search bar's inline `display` style, and the login box's `theme-ready`
class.  Presence flags are fixed attributes of the page, never mutated by
the controller. -/
structure DomState where
  styles : Styles
  loginBoxPresent : Bool
  loginBoxThemeReady : Bool
  sidebarPresent : Bool
  sidebarExpanded : Bool
  searchBarPresent : Bool
  searchBarDisplay : Option String

/-- `showLoginBox` (js lines 486-494): after a 50ms delay, add the
`theme-ready` class to the login box when present. -/
def showLoginBox (d : DomState) : DomState :=
  if d.loginBoxPresent then { d with loginBoxThemeReady := true } else d

/-- `showLoginBoxFallback` (js lines 46-53): add `theme-ready` (after 100ms)
when the login box is present and does not already carry the class. -/
def showLoginBoxFallback (d : DomState) : DomState :=
  if d.loginBoxPresent && !d.loginBoxThemeReady then
    { d with loginBoxThemeReady := true }
  else d

/-- `toggleSidebar` (js lines 500-511): no-op when the container is absent;
the `expanded` class is added exactly when `hide_side_bar === 0` and removed
otherwise.  (Called with a non-null `this.themeData` only; see
`applyTheme`.) -/
def toggleSidebar (theme : ThemeConfig) (d : DomState) : DomState :=
  if !d.sidebarPresent then d
  else if theme.hide_side_bar == some 0 then { d with sidebarExpanded := true }
  else { d with sidebarExpanded := false }

/-- `toggleSearchBar` (js lines 517-526): no-op when the search bar is
absent; sets the inline display to "none" when `getUserRoles()` is true and
touches nothing otherwise (there is no else branch). -/
def toggleSearchBar (userRoles : Option (List String))
    (themeData : Option ThemeConfig) (d : DomState) : DomState :=
  if !d.searchBarPresent then d
  else if getUserRoles userRoles themeData then
    { d with searchBarDisplay := some "none" }
  else d

/-- `applyTheme` (js lines 474-480): run `setCSSVariables`, then the sidebar,
search-bar and login-box steps.  With a null `this.themeData` the
`setCSSVariables` step throws (after its clear/defaults prefix), so the
remaining steps never run.  `setDefaultApp` (js lines 532-548) only invokes
the external app-switcher capability behind optional chaining and a
try/catch; it mutates no DOM state and cannot throw, so it contributes
nothing here.  The second component records whether the call threw. -/
def applyTheme (userRoles : Option (List String))
    (themeData : Option ThemeConfig) (d : DomState) : DomState × Bool :=
  match themeData with
  | none => ({ d with styles := (setCSSVariables none d.styles).1 }, true)
  | some theme =>
    let d1 := { d with styles := (setCSSVariables (some theme) d.styles).1 }
    let d2 := toggleSidebar theme d1
    let d3 := toggleSearchBar userRoles (some theme) d2
    let d4 := showLoginBox d3
    (d4, false)

/-- `applyCachedTheme` (js lines 58-67): when a cache entry with truthy
`data` exists, set `this.themeData` to it and apply; otherwise show the
login-box fallback.  Returns the new `this.themeData`, the DOM state, and
whether the step threw. -/
def applyCachedTheme (userRoles : Option (List String))
    (storage : Option CacheEntry) (d : DomState) :
    Option ThemeConfig × DomState × Bool :=
  match getCachedTheme storage with
  | some cachedData =>
    match cachedData.data with
    | some t =>
      let p := applyTheme userRoles (some t) d
      (some t, p.1, p.2)
    | none => (none, showLoginBoxFallback d, false)
  | none => (none, showLoginBoxFallback d, false)

/-- Final state of one `init` run. -/
structure InitResult where
  dom : DomState
  themeData : Option ThemeConfig
  cache : Option CacheEntry
  threw : Bool

/-- `init` (js lines 21-40): apply the cached theme, load fresh data if
needed, re-apply when fresh data exists; any exception lands in the catch,
which calls `applyTheme` and then `showLoginBoxFallback`.  A throw from
`applyTheme` inside the catch escapes `init` as an unhandled rejection
(recorded in `threw`), with all mutations performed before it kept.
`setupEventListeners` registers listeners only and changes no state. -/
def init (userRoles : Option (List String)) (o : FetchOutcome) (now : Int)
    (storage : Option CacheEntry) (d : DomState) : InitResult :=
  let a := applyCachedTheme userRoles storage d
  let td := a.1
  let d1 := a.2.1
  if a.2.2 then
    -- catch: applyTheme, then showLoginBoxFallback
    let p := applyTheme userRoles td d1
    if p.2 then { dom := p.1, themeData := td, cache := storage, threw := true }
    else { dom := showLoginBoxFallback p.1, themeData := td, cache := storage, threw := false }
  else
    let lr := loadThemeIfNeeded o now { themeData := td, cache := storage }
    let st := lr.1.state
    if lr.1.threw then
      -- catch: applyTheme, then showLoginBoxFallback
      let p := applyTheme userRoles st.themeData d1
      if p.2 then { dom := p.1, themeData := st.themeData, cache := st.cache, threw := true }
      else { dom := showLoginBoxFallback p.1, themeData := st.themeData, cache := st.cache, threw := false }
    else
      match st.themeData with
      | some t =>
        let p := applyTheme userRoles (some t) d1
        { dom := p.1, themeData := some t, cache := st.cache, threw := p.2 }
      | none =>
        { dom := d1, themeData := none, cache := st.cache, threw := false }

/-- Every property name `setCSSVariables` can write: the cleared list plus
the five names it sets but `clearCSSVariables` never removes. -/
def settableNames : List String :=
  cssVariables ++
    ["--login-box-width", "--login-box-padding", "--content-text-color",
     "--sidebar-bg", "--sidebar-text-color"]

/-- The everywhere-unset style map, used as a concrete initial root. -/
def emptyStyles : Styles := fun _ => none

/-- A concrete page state used by witnesses: all elements present, nothing
toggled yet. -/
def pageDom : DomState :=
  { styles := emptyStyles
    loginBoxPresent := true
    loginBoxThemeReady := false
    sidebarPresent := true
    sidebarExpanded := false
    searchBarPresent := true
    searchBarDisplay := none }

set_option maxRecDepth 4000

/-- Folding `removeProperty` over a name list clears exactly those names. -/
theorem foldl_removeProperty (l : List String) (s : Styles) (x : String) :
    (l.foldl Styles.removeProperty s) x = if x ∈ l then none else s x := by
  induction l generalizing s with
  | nil => simp
  | cons n l ih =>
    simp only [List.foldl_cons, ih, List.mem_cons]
    by_cases hx : x = n <;> by_cases hl : x ∈ l <;>
      simp [Styles.removeProperty, hx, hl]

/-- The catch block of `loadTheme` never touches the persisted cache. -/
theorem loadThemeCatch_cache (st : LoadState) :
    (loadThemeCatch st).state.cache = st.cache := by
  rcases st with ⟨td, _ | ⟨data, ts, ver⟩⟩
  · rfl
  · rcases data with _ | d <;> rfl

/-- Any sequence of `toggleSearchBar` calls keeps a display of "none". -/
theorem searchBarDisplay_none_foldl
    (calls : List (Option (List String) × Option ThemeConfig)) :
    ∀ d : DomState, d.searchBarDisplay = some "none" →
      (calls.foldl (fun st c => toggleSearchBar c.1 c.2 st) d).searchBarDisplay
        = some "none" := by
  induction calls with
  | nil => intro d h; simpa using h
  | cons c rest ih =>
    intro d h
    rw [List.foldl_cons]
    apply ih
    unfold toggleSearchBar
    by_cases hp : d.searchBarPresent <;>
      by_cases hr : getUserRoles c.1 c.2 <;> simp [hp, hr, h]

/-- C2: `getUserRoles` returns false when the role list or `hide_search` is
absent; for a user holding Administrator it is true iff `hide_search` has an
Administrator entry, ignoring the user's other roles; otherwise it is true
iff some user role occurs as the role of some `hide_search` entry. -/
theorem getUserRoles_role_match (u : Option (List String)) (td : Option ThemeConfig) :
    ((u = none ∨ td.bind ThemeConfig.hide_search = none) → getUserRoles u td = false) ∧
    (∀ roles hs, u = some roles → td.bind ThemeConfig.hide_search = some hs →
      (("Administrator" ∈ roles →
         (getUserRoles u td = true ↔ ∃ e ∈ hs, e.role = "Administrator")) ∧
       ("Administrator" ∉ roles →
         (getUserRoles u td = true ↔ ∃ r ∈ roles, ∃ e ∈ hs, e.role = r)))) := by
  constructor
  · rintro (rfl | h)
    · rfl
    · cases u with
      | none => rfl
      | some roles => simp [getUserRoles, h]
  · rintro roles hs rfl h2
    constructor
    · intro hadm
      have hc : roles.contains "Administrator" = true := by simpa using hadm
      simp only [getUserRoles, h2]
      rw [if_pos hc]
      simp [List.any_eq_true]
    · intro hadm
      simp only [getUserRoles, h2]
      rw [if_neg (by simpa using hadm)]
      simp [List.any_eq_true]

/-- Witness for C2: `["Administrator"]` against an Administrator entry. -/
theorem getUserRoles_role_match_witness :
    getUserRoles (some ["Administrator"])
      (some { hide_search := some [⟨"Administrator"⟩] }) = true :=
  (((getUserRoles_role_match (some ["Administrator"])
      (some { hide_search := some [⟨"Administrator"⟩] })).2 ["Administrator"]
      [⟨"Administrator"⟩] rfl rfl).1 (by decide)).mpr (by decide)

/-- C4: cache validity is decided purely by `now - timestamp < 86400000`
(strict, so an age of exactly the TTL is invalid), and a valid cache makes
`loadThemeIfNeeded` skip the network fetch. -/
theorem isCacheValid_spec (now ts version : Int) (d : Option ThemeConfig) :
    (isCacheValid (some ⟨d, ts, version⟩) now = true ↔ now - ts < 86400000) ∧
    (now - ts = 86400000 → isCacheValid (some ⟨d, ts, version⟩) now = false) ∧
    (∀ (o : FetchOutcome) (st : LoadState), isCacheValid st.cache now = true →
      loadThemeIfNeeded o now st = ({ state := st, threw := false }, false)) := by
  refine ⟨?_, ?_, ?_⟩
  · simp [isCacheValid, getCachedTheme, cacheTimeout]
  · intro h
    simp [isCacheValid, getCachedTheme, cacheTimeout, h]
  · intro o st h
    simp [loadThemeIfNeeded, h]

/-- Witness for C4: age 1ms short of the TTL is valid and skips the fetch;
age exactly the TTL is invalid. -/
theorem isCacheValid_spec_witness :
    ((86399999 : Int) - 0 < 86400000) ∧
    isCacheValid (some ⟨none, 0, 1⟩) 86399999 = true ∧
    ((86400000 : Int) - 0 = 86400000) ∧
    isCacheValid (some ⟨none, 0, 1⟩) 86400000 = false ∧
    loadThemeIfNeeded .networkError 86399999
        { themeData := none, cache := some ⟨none, 0, 1⟩ }
      = ({ state := { themeData := none, cache := some ⟨none, 0, 1⟩ },
           threw := false }, false) := by
  refine ⟨by decide, (isCacheValid_spec 86399999 0 1 none).1.mpr (by decide),
    by decide, (isCacheValid_spec 86400000 0 1 none).2.1 (by decide),
    (isCacheValid_spec 86399999 0 1 none).2.2 .networkError
      { themeData := none, cache := some ⟨none, 0, 1⟩ } ?_⟩
  exact (isCacheValid_spec 86399999 0 1 none).1.mpr (by decide)

/-- C5 counterexample: at theme state `some` with no cache entry, a non-ok
HTTP status leaves the in-memory theme untouched while an ok response with
an empty unwrapped payload first overwrites it with the empty value (js
line 145) before the rethrow, so the two failures do not produce identical
results. -/
theorem loadTheme_failure_not_identical :
    loadTheme (.response false none) 0 { themeData := some {}, cache := none }
      = { state := { themeData := some {}, cache := none }, threw := true } ∧
    loadTheme (.response true none) 0 { themeData := some {}, cache := none }
      = { state := { themeData := none, cache := none }, threw := true } ∧
    loadTheme (.response false none) 0 { themeData := some {}, cache := none }
      ≠ loadTheme (.response true none) 0 { themeData := some {}, cache := none } :=
  ⟨rfl, rfl, by decide⟩

/-- C5 (amended): a non-ok HTTP status, an empty unwrapped payload and a
network error are all failures handled by the same catch; whenever a cache
entry with data exists (with no staleness check on its timestamp), every
failure kind identically sets `themeData` to the cached data and raises no
error; when no entry exists every failure kind propagates, but an empty
unwrapped payload first overwrites `themeData` with the empty value (js
line 145) while a non-ok status or network error leaves it untouched. -/
theorem loadTheme_failure_spec (now : Int) (st : LoadState) (p : Option ThemeConfig) :
    (loadTheme .networkError now st = loadTheme (.response false p) now st) ∧
    (∀ t ts ver, st.cache = some ⟨some t, ts, ver⟩ →
      loadTheme (.response false p) now st
        = { state := { st with themeData := some t }, threw := false } ∧
      loadTheme (.response true none) now st
        = { state := { st with themeData := some t }, threw := false }) ∧
    (st.cache = none →
      loadTheme (.response false p) now st = { state := st, threw := true } ∧
      loadTheme (.response true none) now st
        = { state := { st with themeData := none }, threw := true }) := by
  refine ⟨rfl, ?_, ?_⟩
  · intro t ts ver h
    constructor <;> simp [loadTheme, loadThemeCatch, getCachedTheme, h]
  · intro h
    constructor <;> simp [loadTheme, loadThemeCatch, getCachedTheme, h]

/-- Witness for C5: with a (stale-timestamped) cache entry present both
failure kinds fall back to the cached theme without throwing; with no entry
both propagate, the empty payload clobbering the theme state first. -/
theorem loadTheme_failure_spec_witness :
    (loadTheme (.response false none) 99 { themeData := none, cache := some ⟨some {}, -5, 1⟩ }
       = { state := { themeData := some {}, cache := some ⟨some {}, -5, 1⟩ }, threw := false } ∧
     loadTheme (.response true none) 99 { themeData := none, cache := some ⟨some {}, -5, 1⟩ }
       = { state := { themeData := some {}, cache := some ⟨some {}, -5, 1⟩ }, threw := false }) ∧
    (loadTheme (.response false none) 99 { themeData := some {}, cache := none }
       = { state := { themeData := some {}, cache := none }, threw := true } ∧
     loadTheme (.response true none) 99 { themeData := some {}, cache := none }
       = { state := { themeData := none, cache := none }, threw := true }) :=
  ⟨(loadTheme_failure_spec 99 { themeData := none, cache := some ⟨some {}, -5, 1⟩ } none).2.1
     {} (-5) 1 rfl,
   (loadTheme_failure_spec 99 { themeData := some {}, cache := none } none).2.2 rfl⟩

/-- C7: writing a theme with `setCachedTheme` and reading it back with
`getCachedTheme` yields an entry holding the identical `ThemeConfig`, and a
startup strictly within the 24h TTL skips the network fetch. -/
theorem cache_roundtrip (t : ThemeConfig) (now later : Int)
    (h : later - now < 86400000) :
    getCachedTheme (setCachedTheme t now) = some ⟨some t, now, 1⟩ ∧
    (getCachedTheme (setCachedTheme t now)).bind CacheEntry.data = some t ∧
    (∀ (o : FetchOutcome) (td : Option ThemeConfig),
      loadThemeIfNeeded o later { themeData := td, cache := setCachedTheme t now }
        = ({ state := { themeData := td, cache := setCachedTheme t now },
             threw := false }, false)) := by
  refine ⟨rfl, rfl, ?_⟩
  intro o td
  have hv : isCacheValid (setCachedTheme t now) later = true := by
    simp [isCacheValid, getCachedTheme, setCachedTheme, cacheTimeout, h]
  simp [loadThemeIfNeeded, hv]

/-- Witness for C7: round-trip at time 10, read at time 20. -/
theorem cache_roundtrip_witness :
    ((20 : Int) - 10 < 86400000) ∧
    getCachedTheme (setCachedTheme {} 10) = some ⟨some {}, 10, 1⟩ ∧
    loadThemeIfNeeded .networkError 20 { themeData := none, cache := setCachedTheme {} 10 }
      = ({ state := { themeData := none, cache := setCachedTheme {} 10 },
           threw := false }, false) :=
  ⟨by decide, (cache_roundtrip {} 10 20 (by decide)).1,
   (cache_roundtrip {} 10 20 (by decide)).2.2 .networkError none⟩

/-- C9: `toggleSearchBar` can only hide: a false role-match leaves the inline
display untouched, and once the display is "none" any sequence of further
`toggleSearchBar` calls (with arbitrary user roles and theme states, as
triggered by the mutation observer) leaves it "none". -/
theorem toggleSearchBar_only_hides (u : Option (List String))
    (td : Option ThemeConfig) (d : DomState) :
    (getUserRoles u td = false →
      (toggleSearchBar u td d).searchBarDisplay = d.searchBarDisplay) ∧
    (d.searchBarDisplay = some "none" →
      ∀ calls : List (Option (List String) × Option ThemeConfig),
        (calls.foldl (fun st c => toggleSearchBar c.1 c.2 st) d).searchBarDisplay
          = some "none") := by
  constructor
  · intro h
    unfold toggleSearchBar
    by_cases hp : d.searchBarPresent <;> simp [hp, h]
  · intro h calls
    exact searchBarDisplay_none_foldl calls d h

/-- Witness for C9: with no user-role context the role-match is false and a
hidden search bar stays hidden across further calls. -/
theorem toggleSearchBar_only_hides_witness :
    (getUserRoles none none = false ∧
      (toggleSearchBar none none pageDom).searchBarDisplay = pageDom.searchBarDisplay) ∧
    (({ pageDom with searchBarDisplay := some "none" } : DomState).searchBarDisplay = some "none" ∧
      (([(some ["System Manager"], none), (none, none)] :
          List (Option (List String) × Option ThemeConfig)).foldl
        (fun st c => toggleSearchBar c.1 c.2 st)
        { pageDom with searchBarDisplay := some "none" }).searchBarDisplay = some "none") :=
  ⟨⟨rfl, (toggleSearchBar_only_hides none none pageDom).1 rfl⟩,
   ⟨rfl, (toggleSearchBar_only_hides none none
      { pageDom with searchBarDisplay := some "none" }).2 rfl
      [(some ["System Manager"], none), (none, none)]⟩⟩

/-- C10: on every `loadTheme` failure the persisted cache entry is untouched
(`setCachedTheme` runs only on the success path), so a stale entry used as a
fallback stays stale and a later startup performs a fetch. -/
theorem loadTheme_failure_cache_unchanged (now later : Int) (st : LoadState)
    (p : Option ThemeConfig) :
    ((loadTheme .networkError now st).state.cache = st.cache) ∧
    ((loadTheme (.response false p) now st).state.cache = st.cache) ∧
    ((loadTheme (.response true none) now st).state.cache = st.cache) ∧
    (∀ d ts ver, st.cache = some ⟨d, ts, ver⟩ → later - ts ≥ 86400000 →
      ∀ o2 : FetchOutcome,
        (loadThemeIfNeeded o2 later (loadTheme (.response false p) now st).state).2
          = true) := by
  refine ⟨loadThemeCatch_cache st, loadThemeCatch_cache st,
    loadThemeCatch_cache { st with themeData := none }, ?_⟩
  intro d ts ver h hstale o2
  have hc : (loadTheme (.response false p) now st).state.cache = some ⟨d, ts, ver⟩ :=
    (loadThemeCatch_cache st).trans h
  have hv : isCacheValid (loadTheme (.response false p) now st).state.cache later = false := by
    simp only [isCacheValid, getCachedTheme, hc]
    simp [cacheTimeout]
    omega
  simp [loadThemeIfNeeded, hv]

/-- Witness for C10: HTTP failure over a stale entry leaves the entry in
place and the next startup (24h later) fetches. -/
theorem loadTheme_failure_cache_unchanged_witness :
    ((loadTheme (.response false none) 86400000
        { themeData := none, cache := some ⟨some {}, 0, 1⟩ }).state.cache
      = some ⟨some {}, 0, 1⟩) ∧
    ((86400000 : Int) - 0 ≥ 86400000) ∧
    (loadThemeIfNeeded .networkError 86400000
        (loadTheme (.response false none) 86400000
          { themeData := none, cache := some ⟨some {}, 0, 1⟩ }).state).2 = true :=
  ⟨(loadTheme_failure_cache_unchanged 86400000 86400000
      { themeData := none, cache := some ⟨some {}, 0, 1⟩ } none).2.1,
   by decide,
   (loadTheme_failure_cache_unchanged 86400000 86400000
      { themeData := none, cache := some ⟨some {}, 0, 1⟩ } none).2.2.2
     (some {}) 0 1 rfl (by decide) .networkError⟩

/-- The conditional section reads the incoming style map at one name only
through that name's own entry: equal entries give equal results. -/
theorem setThemeVariables_congr (t : ThemeConfig) (b₁ b₂ : Styles) (x : String)
    (h : b₁ x = b₂ x) :
    setThemeVariables t b₁ x = setThemeVariables t b₂ x := by
  simp [setThemeVariables, Styles.setProperty, ite_apply, h]

/-- Pointwise congruence for the defaults table. -/
theorem setDefault_congr (b₁ b₂ : Styles) (x : String) (h : b₁ x = b₂ x) :
    setDefaultCSSVariables b₁ x = setDefaultCSSVariables b₂ x := by
  simp [setDefaultCSSVariables, Styles.setProperty, h]

/-- On every name of the enumerated clear list, the result of a theme
application does not depend on the incoming style state: the clear step
resets the name to `none` before defaults and conditionals run. -/
theorem applyStyles_indep (t : ThemeConfig) (s₁ s₂ : Styles) (x : String)
    (hx : x ∈ cssVariables) :
    applyStyles t s₁ x = applyStyles t s₂ x := by
  have h1 : clearCSSVariables s₁ x = clearCSSVariables s₂ x := by
    simp only [clearCSSVariables, foldl_removeProperty, if_pos hx]
  exact setThemeVariables_congr t _ _ x (setDefault_congr _ _ x h1)

/-- A theme application leaves every name outside `settableNames`
untouched. -/
theorem applyStyles_frame (t : ThemeConfig) (s : Styles) (x : String)
    (hx : x ∉ settableNames) :
    applyStyles t s x = s x := by
  simp only [settableNames, cssVariables, List.mem_append, List.mem_cons,
    List.mem_singleton, not_or, List.not_mem_nil] at hx
  simp [applyStyles, setCSSVariables, setThemeVariables, setDefaultCSSVariables,
    clearCSSVariables, cssVariables, Styles.setProperty, Styles.removeProperty,
    ite_apply, hx]

/-- Applying the same theme twice to the root style map equals applying it
once. -/
theorem applyStyles_idem (t : ThemeConfig) (s : Styles) :
    applyStyles t (applyStyles t s) = applyStyles t s := by
  funext x
  by_cases hx : x ∈ settableNames
  · simp only [settableNames, List.mem_append] at hx
    rcases hx with hx | hx
    · exact applyStyles_indep t (applyStyles t s) s x hx
    · simp only [List.mem_cons, List.not_mem_nil, or_false] at hx
      rcases hx with rfl | rfl | rfl | rfl | rfl <;>
        (simp [applyStyles, setCSSVariables, setThemeVariables, setDefaultCSSVariables,
           clearCSSVariables, cssVariables, Styles.setProperty, Styles.removeProperty,
           ite_apply] <;>
         (intros; simp_all))
  · rw [applyStyles_frame t (applyStyles t s) x hx, applyStyles_frame t s x hx]

/-- C1 counterexample: calling `applyTheme` with a null theme state throws
(the property access `theme.login_page_background_color` on js line 297
raises a TypeError), so the claim that it never throws for every theme state
is false. -/
theorem applyTheme_null_throws : (applyTheme none none pageDom).2 = true := rfl

/-- C1 (amended): `applyTheme` never throws for any non-null `ThemeConfig`
(any subset of fields absent); with a null theme state it throws after the
clear and default-setting steps have already run; and even under total
failure of network and cache the startup sequence still ends with the
default style properties applied and the login box made visible (the
fallback in `applyCachedTheme` fires before the failing re-apply). -/
theorem applyTheme_safety (u : Option (List String)) (t : ThemeConfig)
    (d : DomState) (now : Int) :
    ((applyTheme u (some t) d).2 = false) ∧
    (applyTheme u none d
      = ({ d with styles := setDefaultCSSVariables (clearCSSVariables d.styles) }, true)) ∧
    (d.loginBoxPresent = true →
      (init u .networkError now none d).dom.styles
          = setDefaultCSSVariables (clearCSSVariables d.styles) ∧
        (init u .networkError now none d).dom.loginBoxThemeReady = true) := by
  refine ⟨rfl, rfl, ?_⟩
  intro h
  rcases d with ⟨st, lbp, lbr, sbp, sbe, shp, shd⟩
  subst h
  by_cases hr : lbr <;>
    simp [init, applyCachedTheme, getCachedTheme, showLoginBoxFallback,
      loadThemeIfNeeded, isCacheValid, loadTheme, loadThemeCatch, applyTheme,
      setCSSVariables, hr]

/-- Witness for C1: the total-failure startup on a fresh page ends with the
defaults applied and a visible login box. -/
theorem applyTheme_safety_witness :
    pageDom.loginBoxPresent = true ∧
    ((init none .networkError 0 none pageDom).dom.styles
        = setDefaultCSSVariables (clearCSSVariables pageDom.styles) ∧
      (init none .networkError 0 none pageDom).dom.loginBoxThemeReady = true) :=
  ⟨rfl, (applyTheme_safety none {} pageDom 0).2.2 rfl⟩

/-- C3 counterexample: `--content-text-color` (set from
`main_body_content_box_text_color`, js line 425) is missing from the clear
list, so a value set only by a previous application survives a
re-application with a theme that does not configure it. -/
theorem clearCSSVariables_miss_counterexample :
    applyStyles { main_body_content_box_text_color := some "red" } emptyStyles
        "--content-text-color" = some "red" ∧
    applyStyles {} emptyStyles "--content-text-color" = none ∧
    applyStyles {}
        (applyStyles { main_body_content_box_text_color := some "red" } emptyStyles)
        "--content-text-color" = some "red" :=
  ⟨rfl, rfl, rfl⟩

/-- C3 (amended): for every property name in the enumerated clear list,
applying theme B after theme A gives the same value as applying B alone, so
nothing set only by A survives; the four settable names missing from the
list (`--login-box-padding`, `--content-text-color`, `--sidebar-bg`,
`--sidebar-text-color`) are exempt, as the counterexample shows. -/
theorem applyStyles_no_leak (A B : ThemeConfig) (s : Styles) (x : String)
    (hx : x ∈ cssVariables) :
    applyStyles B (applyStyles A s) x = applyStyles B s x :=
  applyStyles_indep B (applyStyles A s) s x hx

/-- Witness for C3: `--content-bg` is in the clear list and does not leak. -/
theorem applyStyles_no_leak_witness :
    "--content-bg" ∈ cssVariables ∧
    applyStyles {}
        (applyStyles { main_body_content_box_background_color := some "blue" } emptyStyles)
        "--content-bg"
      = applyStyles {} emptyStyles "--content-bg" :=
  ⟨by decide,
   applyStyles_no_leak { main_body_content_box_background_color := some "blue" } {}
     emptyStyles "--content-bg" (by decide)⟩

/-- C6: theme application is idempotent: applying the same `ThemeConfig`
twice in succession yields exactly the final style-property map, sidebar
class, search-bar display and login-box state of applying it once. -/
theorem applyTheme_idempotent (u : Option (List String)) (t : ThemeConfig)
    (d : DomState) :
    applyTheme u (some t) (applyTheme u (some t) d).1 = applyTheme u (some t) d := by
  have hstyles := applyStyles_idem t d.styles
  rcases d with ⟨st, lbp, lbr, sbp, sbe, shp, shd⟩
  by_cases h1 : sbp <;> by_cases h2 : (t.hide_side_bar == some 0) = true <;>
    by_cases h3 : shp <;> by_cases h4 : getUserRoles u (some t) = true <;>
    by_cases h5 : lbp <;>
    simp_all [applyTheme, toggleSidebar, toggleSearchBar, showLoginBox,
      applyStyles]

/-- C8 counterexample: `hide_side_bar` is one of the four boolean-like
visibility fields, yet its property `--sidebar-expanded` is written as
"expanded"/"" (js line 466), which is neither the none/block mapping nor its
mirror. -/
theorem hide_side_bar_value_counterexample :
    applyStyles { hide_side_bar := some 0 } emptyStyles "--sidebar-expanded"
        = some "expanded" ∧
    applyStyles { hide_side_bar := some 1 } emptyStyles "--sidebar-expanded"
        = some "" ∧
    ("expanded" ≠ "none" ∧ "expanded" ≠ "block" ∧ ("" : String) ≠ "none" ∧
      ("" : String) ≠ "block") :=
  ⟨rfl, rfl, by decide⟩

/-- C8 (amended): when present, `hide_help_button`, `hide_app_switcher` and
`table_hide_like_comment_section` each set their own property to "none" when
truthy and "block" when falsy, and `hide_app_switcher` additionally sets the
pointer-events property to "none"/"auto"; `hide_side_bar`, however, sets
`--sidebar-expanded` to "expanded" exactly when its value is 0 and to ""
otherwise. -/
theorem visibility_fields_spec (t : ThemeConfig) (s : Styles) :
    (∀ n : Int, t.hide_help_button = some n →
      applyStyles t s "--hide-help" = some (if n = 0 then "block" else "none")) ∧
    (∀ n : Int, t.hide_app_switcher = some n →
      applyStyles t s "--hide-app-switcher" = some (if n = 0 then "block" else "none") ∧
      applyStyles t s "--app-switcher-pointer-events"
        = some (if n = 0 then "auto" else "none")) ∧
    (∀ n : Int, t.table_hide_like_comment_section = some n →
      applyStyles t s "--hide-like-comment" = some (if n = 0 then "block" else "none")) ∧
    (∀ n : Int, t.hide_side_bar = some n →
      applyStyles t s "--sidebar-expanded" = some (if n = 0 then "expanded" else "")) := by
  refine ⟨?_, ?_, ?_, ?_⟩ <;> intro n h <;>
    simp [applyStyles, setCSSVariables, setThemeVariables, setDefaultCSSVariables,
      clearCSSVariables, cssVariables, Styles.setProperty, Styles.removeProperty,
      ite_apply, intTruthy, h]

/-- Witness for C8: a theme with all four fields present, three truthy and
the sidebar flag 0. -/
theorem visibility_fields_spec_witness :
    (applyStyles
        { hide_help_button := some 1, hide_app_switcher := some 1,
          table_hide_like_comment_section := some 1, hide_side_bar := some 0 }
        emptyStyles "--hide-help" = some (if (1 : Int) = 0 then "block" else "none")) ∧
    (applyStyles
        { hide_help_button := some 1, hide_app_switcher := some 1,
          table_hide_like_comment_section := some 1, hide_side_bar := some 0 }
        emptyStyles "--app-switcher-pointer-events"
      = some (if (1 : Int) = 0 then "auto" else "none")) ∧
    (applyStyles
        { hide_help_button := some 1, hide_app_switcher := some 1,
          table_hide_like_comment_section := some 1, hide_side_bar := some 0 }
        emptyStyles "--sidebar-expanded" = some (if (0 : Int) = 0 then "expanded" else "")) :=
  ⟨(visibility_fields_spec
      { hide_help_button := some 1, hide_app_switcher := some 1,
        table_hide_like_comment_section := some 1, hide_side_bar := some 0 }
      emptyStyles).1 1 rfl,
   ((visibility_fields_spec
      { hide_help_button := some 1, hide_app_switcher := some 1,
        table_hide_like_comment_section := some 1, hide_side_bar := some 0 }
      emptyStyles).2.1 1 rfl).2,
   (visibility_fields_spec
      { hide_help_button := some 1, hide_app_switcher := some 1,
        table_hide_like_comment_section := some 1, hide_side_bar := some 0 }
      emptyStyles).2.2.2 0 rfl⟩
